import Mathlib

/-!
# Verification of the `pinger` relay server core

A shallow embedding of `src/ping_server/server.py`: the authentication
service, rate limiter, connection registry, ping delivery service and the
request handlers, with theorems checking the natural-language specification
against the embedded code.

Conventions of the embedding:
* Python `time.time()` floats are modelled as rationals (`ℚ`); the code only
  adds and compares times.
* Python `dict`s are modelled as insertion-ordered association lists with at
  most one entry per key (`dset` updates in place or appends, like CPython);
  `dpop` removes the entry for a key, which on a duplicate-free list is
  `List.filter`.
* Channel sends are fallible I/O.  Their outcomes are supplied by an oracle
  `failList : List Bool` indexed by a running attempt counter: the `k`-th
  physical send attempt fails iff `failList.getD k false`.  Frames accepted
  by a channel are recorded in a `sent` log.
* Exceptions are data: a function that lets an exception propagate returns
  a `Bool`/`Except` marker instead of diverging.
-/

namespace PingServer

/-! ## Python dict as an insertion-ordered association list -/

/-- `d.get(k)` on a Python dict. -/
def dget {α : Type} (m : List (String × α)) (k : String) : Option α :=
  match m.find? (fun p => p.1 == k) with
  | some p => some p.2
  | none => none

/-- `d[k] = v` on a Python dict: update in place if the key exists
(keeping its position, as CPython does), otherwise append. -/
def dset {α : Type} (m : List (String × α)) (k : String) (v : α) :
    List (String × α) :=
  match m with
  | [] => [(k, v)]
  | p :: rest => if p.1 = k then (k, v) :: rest else p :: dset rest k v

/-- `d.pop(k, None)` on a Python dict.  A dict holds at most one entry per
key, so removing the key's entry is filtering it out. -/
def dpop {α : Type} (m : List (String × α)) (k : String) : List (String × α) :=
  m.filter (fun p => p.1 ≠ k)

/-! ## JSON values (payloads of `send_json`, request bodies) -/

/-- JSON values exchanged with clients; `null` doubles as Python `None`. -/
inductive Json where
  | null : Json
  | str : String → Json
  | num : ℚ → Json
  | bool : Bool → Json
  | arr : List Json → Json
  | obj : List (String × Json) → Json

/-- Python truthiness (`not x`) on the values a request body can hold. -/
def pyTruthy : Json → Bool
  | Json.null => false
  | Json.str s => s ≠ ""
  | Json.num q => q ≠ 0
  | Json.bool b => b
  | Json.arr xs => !xs.isEmpty
  | Json.obj kvs => !kvs.isEmpty

/-- `isinstance(x, str)`. -/
def isStr : Json → Bool
  | Json.str _ => true
  | _ => false

/-- Extract the string payload (meaningful only when `isStr` holds). -/
def asStr : Json → String
  | Json.str s => s
  | _ => ""

/-- The keys of a JSON object, in order. -/
def jsonKeys : Json → List String
  | Json.obj kvs => kvs.map Prod.fst
  | _ => []

/-! ## Durable store: session tokens (`SessionToken` table) -/

/-- A row of the `session_tokens` table. -/
structure SessionTok where
  token : String
  username : String
  expiry : ℚ
deriving DecidableEq

/-- The `session_tokens` table, in rowid (insertion) order. -/
abbrev TokStore := List SessionTok

/-- `ServerConfig.TOKEN_EXPIRY_SECONDS = 60 * 60`. -/
def TOKEN_EXPIRY_SECONDS : ℚ := 60 * 60

/-- `AuthenticationService.validate_token`, at current time `now`: look the
token up; absent → `none`; present but `expiry < now` → delete every row
with that token and return `none`; otherwise return the owning username.
Returns the answer and the store after the side effect. -/
def validateToken (now : ℚ) (tok : String) (s : TokStore) :
    Option String × TokStore :=
  match s.find? (fun r => r.token == tok) with
  | none => (none, s)
  | some r =>
    if r.expiry < now then
      (none, s.filter (fun r' => r'.token ≠ tok))
    else
      (some r.username, s)

/-- The persistence part of `login_user`: insert a `SessionToken` row with
`expiry = now + TOKEN_EXPIRY_SECONDS`.  The token value is nondeterministic
(`secrets.token_urlsafe`) so it is a parameter. -/
def loginStore (now : ℚ) (tok username : String) (s : TokStore) : TokStore :=
  s ++ [{ token := tok, username := username, expiry := now + TOKEN_EXPIRY_SECONDS }]

/-- The input-validation part of `login_user`: `credentials.get("username")`
must be truthy and a string, otherwise HTTP 400. -/
def loginCheck (credentials : List (String × Json)) : Except ℕ String :=
  let username := (dget credentials "username").getD Json.null
  if !(pyTruthy username) || !(isStr username) then Except.error 400
  else Except.ok (asStr username)

/-- The input-validation part of `send_user_ping`: `ping_request.get("to")`
must be truthy and a string, otherwise HTTP 400. -/
def pingTargetCheck (ping_request : List (String × Json)) : Except ℕ String :=
  let target := (dget ping_request "to").getD Json.null
  if !(pyTruthy target) || !(isStr target) then Except.error 400
  else Except.ok (asStr target)

/-! ## Duplex-channel liveness probe (`websocket_endpoint` inner loop) -/

/-- Python `str.strip()` whitespace (the ASCII part; the claims only involve
ASCII frames). -/
def pySpace (c : Char) : Bool :=
  c = ' ' || c = '\t' || c = '\n' || c = '\r' || c.toNat = 11 || c.toNat = 12

/-- Python `str.strip()`: drop leading and trailing whitespace. -/
def pyStrip (l : List Char) : List Char :=
  ((l.dropWhile pySpace).reverse.dropWhile pySpace).reverse

/-- `message.strip().lower() == "ping"` elicits the reply `"pong"`; any other
frame gets no reply.  (`Char.toLower` matches Python `str.lower()` on
ASCII.) -/
def handleFrame (msg : List Char) : Option String :=
  if (pyStrip msg).map Char.toLower = "ping".toList then some "pong" else none

/-! ## Connection registry (`ConnectionManager`) -/

/-- The world the `ConnectionManager` acts on: `conns` is
`active_connections` (username → channel id), `sent` logs every frame a
channel accepted, `failList`/`attempts` is the send-outcome oracle. -/
structure NetState where
  conns : List (String × ℕ)
  sent : List (ℕ × Json)
  failList : List Bool
  attempts : ℕ

/-- Whether the next physical send attempt fails, per the oracle. -/
def sendFails (st : NetState) : Bool :=
  st.failList.getD st.attempts false

/-- One `websocket.send_json(msg)` attempt on channel `w`: consumes one
oracle entry; on success the frame is appended to the channel log, on
failure the caller sees an exception (`false` here). -/
def sendJson (st : NetState) (w : ℕ) (msg : Json) : Bool × NetState :=
  if sendFails st then
    (false, { st with attempts := st.attempts + 1 })
  else
    (true, { st with attempts := st.attempts + 1, sent := st.sent ++ [(w, msg)] })

/-- `ConnectionManager.disconnect`. -/
def disconnect (st : NetState) (username : String) : NetState :=
  { st with conns := dpop st.conns username }

/-- `ConnectionManager.is_connected`. -/
def isConnected (st : NetState) (username : String) : Bool :=
  (dget st.conns username).isSome

/-- `ConnectionManager.send_personal_message`: no channel → `False`;
channel write accepted → `True`; write raised → disconnect the user and
return `False`.  Total: no exception escapes. -/
def sendPersonalMessage (st : NetState) (msg : Json) (username : String) :
    Bool × NetState :=
  match dget st.conns username with
  | none => (false, st)
  | some w =>
    let res := sendJson st w msg
    if res.1 then (true, res.2) else (false, disconnect res.2 username)

/-- The `clientlist` presence-snapshot frame. -/
def clientlistFrame (usernames : List String) : Json :=
  Json.obj [("type", Json.str "clientlist"),
            ("clients", Json.arr (usernames.map Json.str))]

/-- The loop body of `send_connected_clients`, iterating the **live**
`active_connections` dict.  A failed `send_json` is caught and the current
user disconnected — but that shrinks the dict under the iterator, so the
very next advance of the `for` loop raises
`RuntimeError: dictionary changed size during iteration`, which nothing
catches.  The returned `Bool` is `true` when that `RuntimeError`
propagated (aborting the rest of the broadcast). -/
def sccLoop (msg : Json) : List (String × ℕ) → NetState → NetState × Bool
  | [], st => (st, false)
  | (u, w) :: rest, st =>
    let res := sendJson st w msg
    if res.1 then sccLoop msg rest res.2
    else (disconnect res.2 u, true)

/-- `ConnectionManager.send_connected_clients`: snapshot the username list,
then send the presence frame to every registered channel (aborting with a
`RuntimeError` after the first failure, see `sccLoop`). -/
def sendConnectedClients (st : NetState) : NetState × Bool :=
  let usernames := st.conns.map Prod.fst
  sccLoop (clientlistFrame usernames) st.conns st

/-- `ConnectionManager.connect`: accept, install the channel (last writer
wins), broadcast the presence snapshot.  The `Bool` marks an escaped
`RuntimeError` from the broadcast. -/
def connect (st : NetState) (w : ℕ) (username : String) : NetState × Bool :=
  sendConnectedClients { st with conns := dset st.conns username w }

/-! ## Rate limiter (`RateLimiter`) -/

/-- One per-identity counter: the dict with keys "count" and
"window_start". -/
structure RateCounter where
  count : ℕ
  window_start : ℚ
deriving DecidableEq

/-- `ServerConfig.RATE_LIMIT_PER_MINUTE`. -/
def RATE_LIMIT_PER_MINUTE : ℕ := 120

/-- `RateLimiter.check_rate_limit` at time `now` on the `user_counters`
dict: `setdefault` a `{0, now}` counter; if more than 60s elapsed since the
window start, reset to count 1 and allow; otherwise increment and allow iff
the post-increment count is within the limit. -/
def checkRateLimit (limit : ℕ) (now : ℚ) (m : List (String × RateCounter))
    (username : String) : Bool × List (String × RateCounter) :=
  let c := (dget m username).getD { count := 0, window_start := now }
  if 60 < now - c.window_start then
    (true, dset m username { count := 1, window_start := now })
  else
    let c' : RateCounter := { count := c.count + 1, window_start := c.window_start }
    (decide (c'.count ≤ limit), dset m username c')

/-- `RateLimiter.cleanup_old_counters` at time `now`: drop every counter
whose window start is more than 3600s in the past. -/
def cleanupOldCounters (now : ℚ) (m : List (String × RateCounter)) :
    List (String × RateCounter) :=
  m.filter (fun p => !(3600 < now - p.2.window_start))

/-- A sequence of `check_rate_limit` calls for one identity, at the given
times; returns the list of results and the final dict. -/
def rlRun (limit : ℕ) (username : String) :
    List ℚ → List (String × RateCounter) →
    List Bool × List (String × RateCounter)
  | [], m => ([], m)
  | t :: ts, m =>
    let r := checkRateLimit limit t m username
    let rest := rlRun limit username ts r.2
    (r.1 :: rest.1, rest.2)

/-! ## Durable store: pending pings (`PendingPing` table) -/

/-- A row of the `pending_pings` table. -/
structure PingRec where
  id : ℕ
  to_username : String
  from_username : String
  ts : ℚ
  delivered : Bool
deriving DecidableEq

/-- The `pending_pings` table (`recs` in rowid order) together with the
autoincrement counter for the next primary key. -/
structure Store where
  recs : List PingRec
  nextId : ℕ

/-- `PingService._store_ping_record`: insert a row, autoincrementing id. -/
def storePingRecord (s : Store) (from_username to_username : String)
    (ts : ℚ) (delivered : Bool) : Store :=
  { recs := s.recs ++ [{ id := s.nextId, to_username := to_username,
                         from_username := from_username, ts := ts,
                         delivered := delivered }],
    nextId := s.nextId + 1 }

/-- The live-delivery `ping` frame built in `send_ping` (note: it carries a
`"to"` key as well). -/
def pingFrame (from_username to_username : String) (ts : ℚ) : Json :=
  Json.obj [("type", Json.str "ping"), ("from", Json.str from_username),
            ("to", Json.str to_username), ("ts", Json.num ts)]

/-- The `queued_ping` replay frame built in `deliver_queued_pings`. -/
def queuedFrame (p : PingRec) : Json :=
  Json.obj [("type", Json.str "queued_ping"), ("from", Json.str p.from_username),
            ("to", Json.str p.to_username), ("ts", Json.num p.ts),
            ("id", Json.num p.id)]

/-- `PingService.send_ping`: attempt one live delivery, store the record
unconditionally with `delivered` = the attempt's outcome, and report
`delivered`/`queued`.  Result is `(result, target_online)`. -/
def sendPing (now : ℚ) (st : NetState) (s : Store)
    (from_username to_username : String) :
    (String × Bool) × NetState × Store :=
  let msg := pingFrame from_username to_username now
  let res := sendPersonalMessage st msg to_username
  let s' := storePingRecord s from_username to_username now res.1
  if res.1 then (("delivered", true), res.2, s')
  else (("queued", false), res.2, s')

/-- Sort records by ascending `id` (the `ORDER BY PendingPing.id`; stable,
like the SQL sort on a rowid-ordered scan). -/
def sortById (l : List PingRec) : List PingRec :=
  l.insertionSort (fun a b => a.id ≤ b.id)

/-- The `SELECT ... WHERE to_username = u AND delivered = false ORDER BY id`
at the top of `deliver_queued_pings`. -/
def selectPending (s : Store) (username : String) : List PingRec :=
  sortById (s.recs.filter (fun r => r.to_username == username && !r.delivered))

/-- The `UPDATE pending_pings SET delivered = true WHERE id = pid`. -/
def setDelivered (recs : List PingRec) (pid : ℕ) : List PingRec :=
  recs.map (fun r => if r.id = pid then { r with delivered := true } else r)

/-- The replay loop of `deliver_queued_pings`: attempt each fetched record
in order; a successful send flips its `delivered` flag; a failure moves on
to the next record.  Also returns the ids attempted and the ids whose send
succeeded (the loop's trace). -/
def dqLoop (username : String) :
    List PingRec → NetState → Store → List ℕ → List ℕ →
    NetState × Store × List ℕ × List ℕ
  | [], st, s, att, succ => (st, s, att, succ)
  | p :: rest, st, s, att, succ =>
    let res := sendPersonalMessage st (queuedFrame p) username
    if res.1 then
      dqLoop username rest res.2 { s with recs := setDelivered s.recs p.id }
        (att ++ [p.id]) (succ ++ [p.id])
    else
      dqLoop username rest res.2 s (att ++ [p.id]) succ

/-- `PingService.deliver_queued_pings`. -/
def deliverQueuedPings (st : NetState) (s : Store) (username : String) :
    NetState × Store × List ℕ × List ℕ :=
  dqLoop username (selectPending s username) st s [] []

/-! ## Concrete fixtures for counterexamples and witnesses -/

/-- `alice` registered on channel 0 whose next write raises. -/
def stAliceDead : NetState :=
  { conns := [("alice", 0)], sent := [], failList := [true], attempts := 0 }

/-- `alice` registered on channel 0 that accepts every write. -/
def stAliceLive : NetState :=
  { conns := [("alice", 0)], sent := [], failList := [], attempts := 0 }

/-- An empty `pending_pings` table. -/
def emptyStore : Store := { recs := [], nextId := 1 }

/-- A pending-ping row that has already been delivered. -/
def deliveredRec : PingRec :=
  { id := 1, to_username := "alice", from_username := "bob", ts := 0,
    delivered := true }

/-- A `pending_pings` table holding only `deliveredRec`. -/
def deliveredStore : Store := { recs := [deliveredRec], nextId := 2 }

/-! ## Theorems -/

/-- Claim C9: at the public interface, `login` rejects the empty-string
identity with `InvalidRequest` (400) even though an empty string is a
present, string-typed value, and `ping` likewise rejects an empty-string or
non-string `to` field with 400 — the truthiness check strengthens the
documented missing/not-a-string condition. -/
theorem c9_truthiness_rejects_empty_and_nonstring :
    loginCheck [("username", Json.str "")] = Except.error 400
    ∧ isStr (Json.str "") = true
    ∧ pingTargetCheck [("to", Json.str "")] = Except.error 400
    ∧ (∀ v : Json, isStr v = false →
        pingTargetCheck [("to", v)] = Except.error 400) := by
  refine ⟨rfl, rfl, rfl, fun v hv => ?_⟩
  cases v <;> simp_all [pingTargetCheck, isStr, dget, List.find?, pyTruthy]

/-- Witness for C9 at the non-string input `5`. -/
theorem c9_witness : pingTargetCheck [("to", Json.num 5)] = Except.error 400 :=
  c9_truthiness_rejects_empty_and_nonstring.2.2.2 (Json.num 5) rfl

/-- Claim C10: on the duplex channel the server replies `"pong"` to every
inbound frame whose text equals `"ping"` after trimming surrounding
whitespace and lowercasing (so `"PING"` and `" Ping "` also elicit pong),
and sends no reply for any other inbound frame. -/
theorem c10_pong_on_trimmed_lowered_ping :
    (∀ msg : List Char,
      handleFrame msg = some "pong" ↔
        (pyStrip msg).map Char.toLower = "ping".toList)
    ∧ handleFrame "PING".toList = some "pong"
    ∧ handleFrame " Ping ".toList = some "pong"
    ∧ handleFrame "ping".toList = some "pong"
    ∧ (∀ msg : List Char, (pyStrip msg).map Char.toLower ≠ "ping".toList →
        handleFrame msg = none) := by
  refine ⟨fun msg => ?_, by decide, by decide, by decide, fun msg h => ?_⟩
  · unfold handleFrame
    by_cases h : (pyStrip msg).map Char.toLower = "ping".toList <;> simp [h]
  · unfold handleFrame
    exact if_neg h

/-- Witness for C10: an arbitrary other frame gets no reply. -/
theorem c10_witness : handleFrame "hello".toList = none :=
  c10_pong_on_trimmed_lowered_ping.2.2.2.2 "hello".toList (by decide)

/-- Claim C1 is refuted at the expiry instant: logging `alice` in at time 0
gives expiry `0 + 3600 = 3600`, and `validate_token` at time 3600 — i.e.
**at** the expiry — still returns the identity, because the code tests
`expiry < now` strictly.  The claim required `none` at or after expiry. -/
theorem c1_counterexample :
    (0 : ℚ) + TOKEN_EXPIRY_SECONDS = 3600
    ∧ (validateToken 3600 "tok" (loginStore 0 "tok" "alice" [])).1
        = some "alice" := by
  constructor
  · norm_num [TOKEN_EXPIRY_SECONDS]
  · unfold validateToken loginStore
    simp only [List.nil_append, List.find?]
    norm_num [TOKEN_EXPIRY_SECONDS]

/-- Claim C1 (amended): after `login`, `validateToken` yields the identity
at any time up to **and including** the expiry, and returns `none` strictly
after the expiry, deleting the record as a side effect (the resulting store
is the pre-login store again). -/
theorem c1_login_validate (s : TokStore) (u tok : String) (now t : ℚ)
    (hfresh : ∀ r ∈ s, r.token ≠ tok) :
    (t ≤ now + TOKEN_EXPIRY_SECONDS →
      validateToken t tok (loginStore now tok u s)
        = (some u, loginStore now tok u s))
    ∧ (now + TOKEN_EXPIRY_SECONDS < t →
      validateToken t tok (loginStore now tok u s) = (none, s)) := by
  have hnone : s.find? (fun r => r.token == tok) = none := by
    rw [List.find?_eq_none]
    intro r hr
    simpa using hfresh r hr
  have hfind :
      (loginStore now tok u s).find? (fun r => r.token == tok)
        = some { token := tok, username := u,
                 expiry := now + TOKEN_EXPIRY_SECONDS } := by
    unfold loginStore
    rw [List.find?_append, hnone]
    simp
  constructor
  · intro hle
    unfold validateToken
    rw [hfind]
    simp only
    rw [if_neg (by simpa using not_lt.mpr hle)]
  · intro hlt
    unfold validateToken
    rw [hfind]
    simp only
    rw [if_pos (by simpa using hlt)]
    have hkeep : s.filter (fun r' => r'.token ≠ tok) = s :=
      List.filter_eq_self.mpr (fun r hr => by simpa using hfresh r hr)
    unfold loginStore
    rw [List.filter_append, hkeep]
    simp

/-- Witness for C1 (amended), at the expiry instant itself. -/
theorem c1_witness :
    validateToken 3600 "tok" (loginStore 0 "tok" "alice" [])
      = (some "alice", loginStore 0 "tok" "alice" []) :=
  (c1_login_validate [] "alice" "tok" 0 3600 (by simp)).1
    (by norm_num [TOKEN_EXPIRY_SECONDS])

/-- Claim C5 names a real bug in `send_connected_clients`: a failed send is
caught and the recipient disconnected, but that mutates
`active_connections` while the `for` loop iterates it, so the loop's next
advance raises an uncaught `RuntimeError` and the broadcast aborts.  At the
failing input — `alice` registered on a dead channel, `bob` registering —
the `RuntimeError` escapes (`.2 = true`), **no** channel receives the
snapshot (the log stays empty), and only `alice` was unregistered. -/
theorem c5_broadcast_aborts_on_failure :
    (connect stAliceDead 1 "bob").2 = true
    ∧ ((connect stAliceDead 1 "bob").1).sent = []
    ∧ ((connect stAliceDead 1 "bob").1).conns = [("bob", 1)] :=
  ⟨rfl, rfl, rfl⟩

/-- Claim C6: `send_personal_message` is total (transport failures are data,
never exceptions): it returns `true` exactly when the identity has a
registered channel and that channel accepted the write; with no registered
channel it returns `false` leaving the state untouched; and when the
registered channel's write fails it returns `false` after unregistering the
identity. -/
theorem c6_send_personal_message (st : NetState) (msg : Json) (u : String) :
    ((sendPersonalMessage st msg u).1 = true ↔
        (dget st.conns u).isSome = true
        ∧ sendFails st = false)
    ∧ (dget st.conns u = none → sendPersonalMessage st msg u = (false, st))
    ∧ (∀ w : ℕ, dget st.conns u = some w →
        sendFails st = true →
        (sendPersonalMessage st msg u).1 = false
        ∧ ((sendPersonalMessage st msg u).2).conns = dpop st.conns u) := by
  rcases h : dget st.conns u with _ | w
  · simp [sendPersonalMessage, h]
  · cases hf : sendFails st
    · simp [sendPersonalMessage, h, sendJson, hf]
    · simp [sendPersonalMessage, h, sendJson, hf, disconnect]

/-- Witness for C6: a registered channel whose write fails. -/
theorem c6_witness :
    (sendPersonalMessage stAliceDead (Json.str "m") "alice").1 = false
    ∧ ((sendPersonalMessage stAliceDead (Json.str "m") "alice").2).conns
      = dpop stAliceDead.conns "alice" :=
  (c6_send_personal_message stAliceDead (Json.str "m") "alice").2.2 0 rfl rfl

/-- Claim C7 is refuted on the shape of the live frame: a successfully
delivered ping makes the recipient's channel receive a JSON object whose
keys are `type, from, to, ts` — it carries a `"to"` key in addition to the
claimed exact shape `type, from, ts`. -/
theorem c7_counterexample :
    (sendPing 5 stAliceLive emptyStore "bob" "alice").1.1 = "delivered"
    ∧ ((sendPing 5 stAliceLive emptyStore "bob" "alice").2.1).sent
      = [(0, pingFrame "bob" "alice" 5)]
    ∧ jsonKeys (pingFrame "bob" "alice" 5) = ["type", "from", "to", "ts"]
    ∧ jsonKeys (pingFrame "bob" "alice" 5) ≠ ["type", "from", "ts"] :=
  ⟨rfl, rfl, rfl, by decide⟩

/-- Claim C7 (amended): every successful live delivery hands the
recipient's channel exactly one new frame, the JSON object with keys
`type = "ping"`, `from` = sender, `to` = recipient and `ts` = creation
time. -/
theorem c7_live_frame_shape (now : ℚ) (st : NetState) (s : Store)
    (fromU toU : String)
    (h : ((sendPing now st s fromU toU).1).2 = true) :
    ∃ w : ℕ, dget st.conns toU = some w
      ∧ ((sendPing now st s fromU toU).2.1).sent
          = st.sent ++ [(w, pingFrame fromU toU now)]
      ∧ pingFrame fromU toU now
          = Json.obj [("type", Json.str "ping"), ("from", Json.str fromU),
                      ("to", Json.str toU), ("ts", Json.num now)] := by
  rcases hd : dget st.conns toU with _ | w
  · exact absurd h (by simp [sendPing, sendPersonalMessage, hd])
  · cases hf : sendFails st
    · exact ⟨w, rfl, by simp [sendPing, sendPersonalMessage, hd, sendJson, hf], rfl⟩
    · exact absurd h
        (by simp [sendPing, sendPersonalMessage, hd, sendJson, hf])

/-- Witness for C7 (amended): the concrete delivery of the
counterexample's run, where the target is online and the send succeeds. -/
theorem c7_witness :
    ∃ w : ℕ,
      dget stAliceLive.conns "alice" = some w
      ∧ ((sendPing 5 stAliceLive emptyStore "bob" "alice").2.1).sent
          = stAliceLive.sent ++ [(w, pingFrame "bob" "alice" 5)]
      ∧ pingFrame "bob" "alice" 5
          = Json.obj [("type", Json.str "ping"), ("from", Json.str "bob"),
                      ("to", Json.str "alice"), ("ts", Json.num 5)] :=
  c7_live_frame_shape 5 stAliceLive emptyStore "bob" "alice" rfl

/-- Claim C2: `send_ping` stores exactly one new `PendingPing` row in every
case — sender, recipient, creation time, and `delivered` equal to the
live-delivery attempt's outcome — and reports `delivered` (with
`target_online = true`) precisely when the live send over the connection
registry succeeded, `queued` otherwise. -/
theorem c2_send_ping_records_unconditionally (now : ℚ) (st : NetState)
    (s : Store) (fromU toU : String) :
    ((sendPing now st s fromU toU).2.2).recs
      = s.recs ++
        [{ id := s.nextId, to_username := toU, from_username := fromU,
           ts := now,
           delivered := (sendPersonalMessage st (pingFrame fromU toU now) toU).1 }]
    ∧ ((sendPing now st s fromU toU).2.2).nextId = s.nextId + 1
    ∧ ((sendPing now st s fromU toU).1.1 = "delivered"
        ↔ (sendPersonalMessage st (pingFrame fromU toU now) toU).1 = true)
    ∧ (sendPing now st s fromU toU).1.2
        = (sendPersonalMessage st (pingFrame fromU toU now) toU).1
    ∧ (sendPing now st s fromU toU).2.1
        = (sendPersonalMessage st (pingFrame fromU toU now) toU).2 := by
  rcases hd : sendPersonalMessage st (pingFrame fromU toU now) toU with ⟨ok, st'⟩
  cases ok <;> simp [sendPing, hd, storePingRecord]

/-! ### Replay-loop lemmas (shared by the C3 and C8 theorems) -/

/-- Membership in the replay selection is exactly "pending ping for this
recipient, not yet delivered". -/
lemma selectPending_mem (s : Store) (u : String) (r : PingRec) :
    r ∈ selectPending s u ↔
      r ∈ s.recs ∧ r.to_username = u ∧ r.delivered = false := by
  unfold selectPending sortById
  rw [List.mem_insertionSort, List.mem_filter]
  simp [Bool.and_eq_true, and_assoc]

/-- The replay selection is sorted by ascending identifier. -/
lemma selectPending_sorted (s : Store) (u : String) :
    (selectPending s u).Pairwise (fun a b => a.id ≤ b.id) := by
  haveI : IsTotal PingRec (fun a b => a.id ≤ b.id) :=
    ⟨fun a b => Nat.le_total a.id b.id⟩
  haveI : IsTrans PingRec (fun a b => a.id ≤ b.id) :=
    ⟨fun _ _ _ hab hbc => Nat.le_trans hab hbc⟩
  unfold selectPending sortById
  exact List.sorted_insertionSort (fun a b : PingRec => a.id ≤ b.id) _

/-- The replay loop attempts every fetched record, in order, whatever the
send outcomes are. -/
lemma dqLoop_attempted (u : String) (l : List PingRec) :
    ∀ (st : NetState) (s : Store) (att succ : List ℕ),
      (dqLoop u l st s att succ).2.2.1 = att ++ l.map (fun r => r.id) := by
  induction l with
  | nil => intro st s att succ; simp [dqLoop]
  | cons p rest ih =>
    intro st s att succ
    unfold dqLoop
    by_cases h : (sendPersonalMessage st (queuedFrame p) u).1 <;>
      simp [h, ih]

/-- The replay loop extends the success list by a sublist `ns` of the
attempted ids and updates the store by flipping `delivered` exactly for
`ns`, leaving the autoincrement counter alone. -/
lemma dqLoop_store (u : String) (l : List PingRec) :
    ∀ (st : NetState) (s : Store) (att succ : List ℕ),
      ∃ ns : List ℕ,
        (dqLoop u l st s att succ).2.2.2 = succ ++ ns
        ∧ ns ⊆ l.map (fun r => r.id)
        ∧ ((dqLoop u l st s att succ).2.1).recs = ns.foldl setDelivered s.recs
        ∧ ((dqLoop u l st s att succ).2.1).nextId = s.nextId := by
  induction l with
  | nil =>
    intro st s att succ
    exact ⟨[], by simp [dqLoop], by simp, by simp [dqLoop, List.foldl], by simp [dqLoop]⟩
  | cons p rest ih =>
    intro st s att succ
    by_cases h : (sendPersonalMessage st (queuedFrame p) u).1
    · obtain ⟨ns, h1, h2, h3, h4⟩ :=
        ih (sendPersonalMessage st (queuedFrame p) u).2
          { s with recs := setDelivered s.recs p.id }
          (att ++ [p.id]) (succ ++ [p.id])
      refine ⟨p.id :: ns, ?_, ?_, ?_, ?_⟩
      · simpa [dqLoop, h] using h1
      · exact List.cons_subset.mpr
          ⟨List.mem_cons_self _ _, h2.trans (List.subset_cons_self _ _)⟩
      · simpa [dqLoop, h, List.foldl] using h3
      · simpa [dqLoop, h] using h4
    · obtain ⟨ns, h1, h2, h3, h4⟩ :=
        ih (sendPersonalMessage st (queuedFrame p) u).2 s (att ++ [p.id]) succ
      refine ⟨ns, ?_, h2.trans (List.subset_cons_self _ _), ?_, ?_⟩
      · simpa [dqLoop, h] using h1
      · simpa [dqLoop, h] using h3
      · simpa [dqLoop, h] using h4

/-- Folding the one-row `UPDATE` over a list of ids marks exactly the rows
whose id occurs in the list. -/
lemma foldl_setDelivered (ids : List ℕ) :
    ∀ recs : List PingRec,
      ids.foldl setDelivered recs
        = recs.map (fun r =>
            if r.id ∈ ids then { r with delivered := true } else r) := by
  induction ids with
  | nil =>
    intro recs
    simp
  | cons i ids ih =>
    intro recs
    rw [List.foldl_cons, ih, setDelivered, List.map_map]
    refine List.map_congr_left (fun r _ => ?_)
    by_cases hi : r.id = i
    · by_cases hm : ({ r with delivered := true } : PingRec).id ∈ ids <;>
        simp_all
    · by_cases hm : r.id ∈ ids <;> simp_all

/-- Claim C3: replay for an identity selects exactly its undelivered
pending pings, in ascending identifier order; every selected record is
attempted in that order (a failure never aborts the remainder); the store
ends with `delivered = true` for exactly the records whose live send
succeeded (the success-trace ids, a subset of the attempted ids), all other
rows and the id counter untouched. -/
theorem c3_replay_selects_and_flips (st : NetState) (s : Store) (u : String) :
    (∀ r : PingRec, r ∈ selectPending s u ↔
        r ∈ s.recs ∧ r.to_username = u ∧ r.delivered = false)
    ∧ (selectPending s u).Pairwise (fun a b => a.id ≤ b.id)
    ∧ (deliverQueuedPings st s u).2.2.1
        = (selectPending s u).map (fun r => r.id)
    ∧ ((deliverQueuedPings st s u).2.1).recs
        = s.recs.map (fun r =>
            if r.id ∈ (deliverQueuedPings st s u).2.2.2
            then { r with delivered := true } else r)
    ∧ (deliverQueuedPings st s u).2.2.2 ⊆ (deliverQueuedPings st s u).2.2.1
    ∧ ((deliverQueuedPings st s u).2.1).nextId = s.nextId := by
  obtain ⟨ns, h1, h2, h3, h4⟩ := dqLoop_store u (selectPending s u) st s [] []
  rw [List.nil_append] at h1
  refine ⟨selectPending_mem s u, selectPending_sorted s u, ?_, ?_, ?_, ?_⟩
  · unfold deliverQueuedPings
    simpa using dqLoop_attempted u (selectPending s u) st s [] []
  · unfold deliverQueuedPings
    rw [h3, h1, foldl_setDelivered]
  · unfold deliverQueuedPings
    rw [h1, dqLoop_attempted u (selectPending s u) st s [] [], List.nil_append]
    exact h2
  · unfold deliverQueuedPings
    exact h4

/-- Claim C8: unregistering an identity twice equals unregistering it once
(the second `pop` is a no-op), and a pending-ping record that is already
`delivered = true` is never selected by replay, never attempted, and
survives replay unchanged (given the primary-key uniqueness of ids). -/
theorem c8_unregister_replay_idempotent (m : List (String × ℕ)) (u : String)
    (st : NetState) (s : Store) (r : PingRec)
    (hr : r ∈ s.recs) (hdel : r.delivered = true)
    (hids : s.recs.Pairwise (fun a b => a.id ≠ b.id)) :
    dpop (dpop m u) u = dpop m u
    ∧ r ∉ selectPending s u
    ∧ r.id ∉ (deliverQueuedPings st s u).2.2.1
    ∧ r ∈ ((deliverQueuedPings st s u).2.1).recs := by
  have hatt : r.id ∉ (deliverQueuedPings st s u).2.2.1 := by
    unfold deliverQueuedPings
    rw [dqLoop_attempted u (selectPending s u) st s [] [], List.nil_append]
    intro hmem
    obtain ⟨r', hr', hid⟩ := List.mem_map.mp hmem
    obtain ⟨hr'mem, -, hr'del⟩ := (selectPending_mem s u r').mp hr'
    have hne : r ≠ r' := fun he => by rw [← he] at hr'del; simp [hdel] at hr'del
    have hsymm : Symmetric (fun a b : PingRec => a.id ≠ b.id) :=
      fun a b h he => h he.symm
    exact hids.forall hsymm hr hr'mem hne hid.symm
  refine ⟨?_, ?_, hatt, ?_⟩
  · simp [dpop, List.filter_filter]
  · intro hmem
    obtain ⟨-, -, hfalse⟩ := (selectPending_mem s u r).mp hmem
    rw [hdel] at hfalse
    exact Bool.noConfusion hfalse
  · obtain ⟨ns, h1, h2, h3, h4⟩ := dqLoop_store u (selectPending s u) st s [] []
    rw [List.nil_append] at h1
    have hns : r.id ∉ ns := by
      intro hin
      refine hatt ?_
      unfold deliverQueuedPings
      rw [dqLoop_attempted u (selectPending s u) st s [] [], List.nil_append]
      exact List.map_subset _ (fun x hx => hx) (h2 hin)
    unfold deliverQueuedPings
    rw [h3, foldl_setDelivered]
    have hmem := List.mem_map_of_mem
      (fun r' : PingRec =>
        if r'.id ∈ ns then { r' with delivered := true } else r') hr
    simpa [hns] using hmem

/-- Witness for C8: a store holding one already-delivered record. -/
theorem c8_witness :
    dpop (dpop [("a", 1)] "alice") "alice" = dpop [("a", 1)] "alice"
    ∧ deliveredRec ∉ selectPending deliveredStore "alice"
    ∧ deliveredRec.id ∉ (deliverQueuedPings stAliceLive deliveredStore "alice").2.2.1
    ∧ deliveredRec ∈ ((deliverQueuedPings stAliceLive deliveredStore "alice").2.1).recs :=
  c8_unregister_replay_idempotent [("a", 1)] "alice" stAliceLive deliveredStore
    deliveredRec (by simp [deliveredStore]) rfl (by simp [deliveredStore])

/-! ### Rate-limiter lemmas (shared by the C4 theorems) -/

/-- One `check_rate_limit` call within the current window: increment, allow
iff the post-increment count is within the limit. -/
lemma checkRateLimit_in_window (limit : ℕ) (now t0 : ℚ) (u : String) (c : ℕ)
    (h : now - t0 ≤ 60) :
    checkRateLimit limit now [(u, { count := c, window_start := t0 })] u
      = (decide (c + 1 ≤ limit),
         [(u, { count := c + 1, window_start := t0 })]) := by
  simp [checkRateLimit, dget, dset, not_lt.mpr h]

/-- One `check_rate_limit` call after more than 60s: reset to count 1 and
allow unconditionally. -/
lemma checkRateLimit_reset (limit : ℕ) (now t0 : ℚ) (u : String) (c : ℕ)
    (h : 60 < now - t0) :
    checkRateLimit limit now [(u, { count := c, window_start := t0 })] u
      = (true, [(u, { count := 1, window_start := now })]) := by
  simp [checkRateLimit, dget, dset, h]

/-- The first ever `check_rate_limit` call creates the window at `now` with
count 1. -/
lemma checkRateLimit_fresh (limit : ℕ) (now : ℚ) (u : String) :
    checkRateLimit limit now [] u
      = (decide (1 ≤ limit), [(u, { count := 1, window_start := now })]) := by
  have h0 : ¬ ((60 : ℚ) < now - now) := by norm_num
  simp [checkRateLimit, dget, dset, h0]

/-- `rlRun` distributes over list append. -/
lemma rlRun_append (limit : ℕ) (u : String) (ts1 ts2 : List ℚ) :
    ∀ m, rlRun limit u (ts1 ++ ts2) m
      = ((rlRun limit u ts1 m).1 ++ (rlRun limit u ts2 (rlRun limit u ts1 m).2).1,
         (rlRun limit u ts2 (rlRun limit u ts1 m).2).2) := by
  induction ts1 with
  | nil => intro m; simp [rlRun]
  | cons t ts ih => intro m; simp [rlRun, ih]

/-- Unfolding one step of `rlRun`. -/
lemma rlRun_cons (limit : ℕ) (u : String) (t : ℚ) (ts : List ℚ)
    (m : List (String × RateCounter)) :
    rlRun limit u (t :: ts) m
      = ((checkRateLimit limit t m u).1
           :: (rlRun limit u ts (checkRateLimit limit t m u).2).1,
         (rlRun limit u ts (checkRateLimit limit t m u).2).2) := rfl

/-- A run of in-window calls that stays within the limit: every call is
allowed and the count grows by the number of calls. -/
lemma rlRun_allowed (u : String) (t0 : ℚ) (ts : List ℚ) :
    ∀ c : ℕ, (∀ t ∈ ts, t - t0 ≤ 60) →
      c + ts.length ≤ RATE_LIMIT_PER_MINUTE →
      rlRun RATE_LIMIT_PER_MINUTE u ts
          [(u, { count := c, window_start := t0 })]
        = (List.replicate ts.length true,
           [(u, { count := c + ts.length, window_start := t0 })]) := by
  induction ts with
  | nil => intro c _ _; simp [rlRun]
  | cons t ts ih =>
    intro c hwin hc
    have ht : t - t0 ≤ 60 := hwin t (List.mem_cons_self _ _)
    have hdec : decide (c + 1 ≤ RATE_LIMIT_PER_MINUTE) = true := by
      rw [decide_eq_true_eq]
      simp only [List.length_cons] at hc
      omega
    have hrest := ih (c + 1)
      (fun t' ht' => hwin t' (List.mem_cons_of_mem _ ht'))
      (by simp only [List.length_cons] at hc; omega)
    have hcount : c + 1 + ts.length = c + (ts.length + 1) := by omega
    simp [rlRun_cons, checkRateLimit_in_window RATE_LIMIT_PER_MINUTE t t0 u c ht,
      hdec, hrest, List.replicate_succ, hcount]

/-- Claim C4 is refuted by a burst across a window boundary (the spec's own
§4.2 caveat): one call at t = 0 opens the window; 60 calls at t = 59 and 61
calls at t = 61 — the latter 121 calls all lie within a rolling 60-second
window (all times in [59, 61]) — are **all** allowed, because the call at
t = 61 resets the fixed window.  In particular the 121st call of that
rolling window returns `true`, not `false`. -/
theorem c4_counterexample :
    (rlRun RATE_LIMIT_PER_MINUTE "u"
        ((0 : ℚ) :: (List.replicate 60 59 ++ List.replicate 61 61)) []).1
      = List.replicate 122 true
    ∧ (List.replicate 60 (59 : ℚ) ++ List.replicate 61 61).length = 121
    ∧ (List.replicate 60 (59 : ℚ) ++ List.replicate 61 61).all
        (fun t => decide (59 ≤ t) && decide (t ≤ 61)) = true := by
  refine ⟨?_, by simp, ?_⟩
  · have h1 : checkRateLimit RATE_LIMIT_PER_MINUTE 0 [] "u"
        = (true, [("u", { count := 1, window_start := 0 })]) := by
      rw [checkRateLimit_fresh]
      simp [RATE_LIMIT_PER_MINUTE]
    have h2 : rlRun RATE_LIMIT_PER_MINUTE "u" (List.replicate 60 (59 : ℚ))
        [("u", { count := 1, window_start := 0 })]
        = (List.replicate 60 true,
           [("u", { count := 61, window_start := 0 })]) := by
      have := rlRun_allowed "u" 0 (List.replicate 60 (59 : ℚ)) 1
        (fun t ht => by rw [List.eq_of_mem_replicate ht]; norm_num)
        (by simp [RATE_LIMIT_PER_MINUTE])
      simpa using this
    have h3 : checkRateLimit RATE_LIMIT_PER_MINUTE 61
        [("u", { count := 61, window_start := 0 })] "u"
        = (true, [("u", { count := 1, window_start := 61 })]) :=
      checkRateLimit_reset _ _ _ _ _ (by norm_num)
    have h4 : rlRun RATE_LIMIT_PER_MINUTE "u" (List.replicate 60 (61 : ℚ))
        [("u", { count := 1, window_start := 61 })]
        = (List.replicate 60 true,
           [("u", { count := 61, window_start := 61 })]) := by
      have := rlRun_allowed "u" 61 (List.replicate 60 (61 : ℚ)) 1
        (fun t ht => by rw [List.eq_of_mem_replicate ht]; norm_num)
        (by simp [RATE_LIMIT_PER_MINUTE])
      simpa using this
    have h5 : rlRun RATE_LIMIT_PER_MINUTE "u" (List.replicate 61 (61 : ℚ))
        [("u", { count := 61, window_start := 0 })]
        = (true :: List.replicate 60 true,
           [("u", { count := 61, window_start := 61 })]) := by
      rw [show List.replicate 61 (61 : ℚ) = 61 :: List.replicate 60 61 from
            List.replicate_succ _ _,
          rlRun_cons, h3]
      simp only [h4]
    rw [rlRun_cons, h1]
    simp only [rlRun_append, h2, h5]
    decide
  · rw [List.all_eq_true]
    intro t ht
    rcases List.mem_append.mp ht with h | h <;>
      rw [List.eq_of_mem_replicate h] <;> norm_num

/-- Claim C4 (amended): within a single fixed window — window start set by
the first call, every later call at most 60 seconds after it — the first
120 calls are allowed and the 121st is rejected with the count still
incremented to 121; a later call more than 60 seconds after the window
start resets the counter to 1 and is allowed. -/
theorem c4_fixed_window_121st_rejected (u : String) (t0 : ℚ) (ts : List ℚ)
    (t121 tReset : ℚ) (hlen : ts.length = 119)
    (hwin : ∀ t ∈ ts, t - t0 ≤ 60) (h121 : t121 - t0 ≤ 60)
    (hreset : 60 < tReset - t0) :
    checkRateLimit RATE_LIMIT_PER_MINUTE t0 [] u
      = (true, [(u, { count := 1, window_start := t0 })])
    ∧ rlRun RATE_LIMIT_PER_MINUTE u ts [(u, { count := 1, window_start := t0 })]
      = (List.replicate 119 true, [(u, { count := 120, window_start := t0 })])
    ∧ checkRateLimit RATE_LIMIT_PER_MINUTE t121
        [(u, { count := 120, window_start := t0 })] u
      = (false, [(u, { count := 121, window_start := t0 })])
    ∧ checkRateLimit RATE_LIMIT_PER_MINUTE tReset
        [(u, { count := 121, window_start := t0 })] u
      = (true, [(u, { count := 1, window_start := tReset })]) := by
  refine ⟨by rw [checkRateLimit_fresh]; simp [RATE_LIMIT_PER_MINUTE], ?_, ?_, ?_⟩
  · have := rlRun_allowed u t0 ts 1 hwin
      (by rw [hlen]; norm_num [RATE_LIMIT_PER_MINUTE])
    rw [hlen] at this
    simpa using this
  · rw [checkRateLimit_in_window _ _ _ _ _ h121]
    norm_num [RATE_LIMIT_PER_MINUTE]
  · exact checkRateLimit_reset _ _ _ _ _ hreset

/-- Witness for C4 (amended): 120 calls at t = 0, the 121st rejected, then
a reset call at t = 61. -/
theorem c4_witness :
    checkRateLimit RATE_LIMIT_PER_MINUTE 0 [] "u"
      = (true, [("u", { count := 1, window_start := 0 })])
    ∧ rlRun RATE_LIMIT_PER_MINUTE "u" (List.replicate 119 0)
        [("u", { count := 1, window_start := 0 })]
      = (List.replicate 119 true, [("u", { count := 120, window_start := 0 })])
    ∧ checkRateLimit RATE_LIMIT_PER_MINUTE 0
        [("u", { count := 120, window_start := 0 })] "u"
      = (false, [("u", { count := 121, window_start := 0 })])
    ∧ checkRateLimit RATE_LIMIT_PER_MINUTE 61
        [("u", { count := 121, window_start := 0 })] "u"
      = (true, [("u", { count := 1, window_start := 61 })]) :=
  c4_fixed_window_121st_rejected "u" 0 (List.replicate 119 0) 0 61 (by simp)
    (fun t ht => by rw [List.eq_of_mem_replicate ht]; norm_num)
    (by norm_num) (by norm_num)

end PingServer
